import Mathlib

/-!
Shallow embedding of `generate_topology.py` (WMF mini-clab topology
generator): the link canonicalizer `get_link_tupple`, the vendor interface
name translators `get_valid_juniper_name` / `get_nokia_name`, the topology
graph builder loop of `main` (scoped-interface collection and link-set
construction), and the startup configuration synthesizer
`generate_start_script`.  Python strings are Lean `String`s; Python `set`
becomes `Finset`; Python exceptions (the `int()` `ValueError` in the VLAN
branch) become an `Option`/flag error channel.
-/

namespace GenTopo

/-- Model of Python `str.replace(pat, rep)` on character lists: leftmost,
non-overlapping replacement of every occurrence of `pat` by `rep`.
(For the empty pattern Python interleaves `rep`; that case never occurs in
the source, and the model returns the input unchanged there.) -/
def pyReplace (pat rep : List Char) : List Char → List Char
  | [] => []
  | c :: cs =>
    if pat ≠ [] ∧ pat = (c :: cs).take pat.length then
      rep ++ pyReplace pat rep ((c :: cs).drop pat.length)
    else
      c :: pyReplace pat rep cs
termination_by l => l.length
decreasing_by
  · rename_i h
    have hp : 0 < pat.length := List.length_pos.mpr h.1
    simp only [List.length_drop, List.length_cons]
    omega
  · simp only [List.length_cons]
    omega

/-- `pyReplace` lifted to `String` (Python `s.replace(pat, rep)`). -/
def pyReplaceS (pat rep s : String) : String :=
  ⟨pyReplace pat.data rep.data s.data⟩

/-- Model of Python `str.split(sep)` for a single-character separator:
always returns a non-empty list of (possibly empty) segments. -/
def splitChar (sep : Char) : List Char → List (List Char)
  | [] => [[]]
  | c :: cs =>
    match splitChar sep cs with
    | [] => [[c]]
    | h :: t => if c = sep then [] :: h :: t else (c :: h) :: t

/-- Decimal value of a digit list (used by the `int()` model). -/
def digitsVal (l : List Char) : Nat :=
  l.foldl (fun acc c => acc * 10 + (c.toNat - '0'.toNat)) 0

/-- The whitespace characters CPython's `int()` strips around a base-10
literal, restricted to ASCII: tab, newline, vertical tab, form feed,
carriage return and space (checked against CPython 3.11, which does not
strip `\x1c`-`\x1f` here; the non-ASCII Unicode spaces it does strip lie
outside the ASCII range this model covers). -/
def isPySpace (c : Char) : Bool :=
  c = ' ' || c = '\t' || c = '\n' || c = '\x0b' || c = '\x0c' || c = '\r'

/-- Continuation of a Python base-10 digit run after one digit: further
digits with single `_` separators allowed only between digits (PEP 515);
returns the digits with the separators removed, `none` on a leading,
trailing or doubled `_` or any non-digit. -/
def pyDigitsRest : List Char → Option (List Char)
  | [] => some []
  | '_' :: c :: rest =>
    if c.isDigit then (pyDigitsRest rest).map (c :: ·) else none
  | '_' :: [] => none
  | c :: rest =>
    if c.isDigit then (pyDigitsRest rest).map (c :: ·) else none

/-- A Python base-10 digit run: at least one digit, then digits with `_`
grouping; yields the digits without separators. -/
def pyParseDigits (l : List Char) : Option (List Char) :=
  match l with
  | c :: rest => if c.isDigit then (pyDigitsRest rest).map (c :: ·) else none
  | [] => none

/-- Model of Python `int(s)` in base 10 for ASCII strings, checked
against CPython 3.11: strip surrounding whitespace, an optional single
sign, then decimal digits with single-underscore grouping (PEP 515);
everything else raises `ValueError`, modelled as `none`.  CPython also
accepts non-ASCII forms (Unicode decimal digits, Unicode spaces) that
are outside the ASCII character range covered here; the claims that rely
on the raising direction therefore carry an ASCII hypothesis. -/
def pyInt (l : List Char) : Option Int :=
  let t := ((l.dropWhile isPySpace).reverse.dropWhile isPySpace).reverse
  match t with
  | '+' :: r => (pyParseDigits r).map (fun ds => (digitsVal ds : Int))
  | '-' :: r => (pyParseDigits r).map (fun ds => -(digitsVal ds : Int))
  | _ => (pyParseDigits t).map (fun ds => (digitsVal ds : Int))

/-- One entry of an interface's `connected_endpoints` list: `device.name`
and `name` of the peer interface. -/
structure Endpoint where
  device : String
  name : String
deriving DecidableEq, Repr

/-- One interface record of the inventory.  `connected_endpoints` entries
are `Option Endpoint`: `none` models the empty record `{}` produced for a
non-interface peer (the `len(...) > 0` guard in the source), `some e` a
populated entry. -/
structure Interface where
  name : String
  parent : Option String
  ip_addresses : List String
  connected_endpoints : List (Option Endpoint)
deriving DecidableEq, Repr

/-- One device record of the inventory: `name`, `role.slug`,
`device_type.manufacturer.slug`, and the interface list. -/
structure Device where
  name : String
  role : String
  manufacturer : String
  interfaces : List Interface
deriving DecidableEq, Repr

/-- A link tuple as produced by `get_link_tupple`:
(device1, interface1, device2, interface2). -/
abbrev LinkTup := String × String × String × String

/-- `get_link_tupple` (source lines 81-88): orders the two endpoints by
device name — `(a_dev, a_int, b_dev, b_int)` when `a_dev < b_dev`,
otherwise the swapped tuple.  Python `str` comparison is lexicographic by
code point, which is the `<` of the underlying character lists. -/
def get_link_tupple (a_dev a_int b_dev b_int : String) : LinkTup :=
  if a_dev.data < b_dev.data then (a_dev, a_int, b_dev, b_int)
  else (b_dev, b_int, a_dev, a_int)

/-- `get_valid_juniper_name` (source lines 112-113):
`name.replace('/', '_').replace(':', '_')`. -/
def get_valid_juniper_name (juniper_name : String) : String :=
  pyReplaceS ":" "_" (pyReplaceS "/" "_" juniper_name)

/-- `get_nokia_name` (source lines 107-109): `"e1-" + name.split('/')[-1]`. -/
def get_nokia_name (juniper_name : String) : String :=
  "e1-" ++ ⟨(splitChar '/' juniper_name.data).getLastD []⟩

/-- The guard of the builder loop (source lines 60-61), and the data it
extracts when it passes: for an interface whose `connected_endpoints` is
non-empty, whose first entry is a populated record, and whose peer device
name is in `lab_device_names`, return the interface name together with the
canonical link tuple; otherwise `none` (the loop `continue`s). -/
def interface_link (lab_device_names : List String) (device_name : String)
    (interface : Interface) : Option (String × LinkTup) :=
  match interface.connected_endpoints.head? with
  | some (some ep) =>
    if ep.device ∈ lab_device_names then
      some (interface.name,
            get_link_tupple device_name interface.name ep.device ep.name)
    else none
  | _ => none

/-- One device's pass of the builder loop (source lines 59-68): the
qualifying interfaces, each with its scoped name and its link tuple, in
inventory order. -/
def scan_device (lab_device_names : List String) (d : Device) :
    List (String × LinkTup) :=
  d.interfaces.filterMap (interface_link lab_device_names d.name)

/-- The builder's `connected_interfaces[device_name]` (a `defaultdict`):
the scoped interface names appended for that device name, in inventory
order; `[]` for a device name never seen. -/
def connected_interfaces (lab_device_names : List String)
    (devices : List Device) (device_name : String) : List String :=
  (devices.filter (fun d => d.name == device_name)).flatMap
    (fun d => (scan_device lab_device_names d).map Prod.fst)

/-- The builder's `links` set (source lines 43, 66-68): all link tuples
produced by the scan, with Python `set` semantics. -/
def build_links (lab_device_names : List String) (devices : List Device) :
    Finset LinkTup :=
  ((devices.map (fun d => (scan_device lab_device_names d).map Prod.snd)).flatten).toFinset

/-- Node-kind assignment of `main` (source lines 50-56): `server → linux`,
`asw → nokia_srlinux/ixrd2l`, `cr → crpd`; any other role yields no node. -/
def node_for_device (d : Device) : Option (String × Option String) :=
  if d.role = "server" then some ("linux", none)
  else if d.role = "asw" then some ("nokia_srlinux", some "ixrd2l")
  else if d.role = "cr" then some ("crpd", none)
  else none

/-- One provisioning action of the startup script (one written line of
`generate_start_script`, the namespace prefix aside). -/
inductive Action where
  | setArpIgnore : Action
  | addAddress (iface : String) (addr : String) : Action
  | createVlanSub (parent child : String) (vlan : Int) : Action
  | setLinkUp (iface : String) : Action
deriving DecidableEq, Repr

/-- The per-interface body of `generate_start_script` (source lines
180-204) for one non-`asw` device: the actions written for this
interface, or `none` when the `int()` call of the VLAN branch raises
`ValueError` (which happens before that branch writes anything). -/
def interface_actions (connected : List String) (manufacturer : String)
    (interface : Interface) : Option (List Action) :=
  if interface.ip_addresses = [] then some []
  else if interface.name ∈ connected ∨ interface.name = "lo0" then
    let interface_name :=
      if manufacturer = "juniper" then get_valid_juniper_name interface.name
      else interface.name
    some (interface.ip_addresses.map
      (fun ip => Action.addAddress (pyReplaceS "lo0" "lo" interface_name) ip))
  else
    match interface.parent with
    | some parent =>
      if parent ∈ connected then
        let interface_name := get_valid_juniper_name interface.name
        let parent_name := get_valid_juniper_name parent
        match pyInt ((splitChar '.' interface_name.data).getLastD []) with
        | some vlan =>
          some (Action.createVlanSub parent_name interface_name vlan ::
                interface.ip_addresses.map
                  (fun ip => Action.addAddress interface_name ip) ++
                [Action.setLinkUp interface_name])
        | none => none
      else some []
    | none => some []

/-- The interface loop of `generate_start_script` for one device: the
actions written, and `true` when it ran to completion — on a raise the
actions written before the exception are kept and the flag is `false`. -/
def run_interfaces (connected : List String) (manufacturer : String) :
    List Interface → List Action × Bool
  | [] => ([], true)
  | i :: rest =>
    match interface_actions connected manufacturer i with
    | none => ([], false)
    | some acts =>
      let r := run_interfaces connected manufacturer rest
      (acts ++ r.1, r.2)

/-- `generate_start_script` (source lines 169-206): per non-`asw` device,
the ARP-ignore line followed by the interface actions; `asw` devices are
skipped entirely.  The flag is `false` when a `ValueError` aborted the
run, in which case the partially written output is kept and later devices
produce nothing. -/
def generate_start_script (devices : List Device)
    (connected : String → List String) : List (String × List Action) × Bool :=
  match devices with
  | [] => ([], true)
  | d :: rest =>
    if d.role = "asw" then generate_start_script rest connected
    else
      let r := run_interfaces (connected d.name) d.manufacturer d.interfaces
      if r.2 then
        let more := generate_start_script rest connected
        ((d.name, Action.setArpIgnore :: r.1) :: more.1, more.2)
      else ([(d.name, Action.setArpIgnore :: r.1)], false)

/-! ## Helper lemmas -/

/-- When the two device names differ, `get_link_tupple` is insensitive to
argument order: the strict order on names picks the same orientation from
either side. -/
theorem get_link_tupple_comm (a_dev a_int b_dev b_int : String)
    (h : a_dev ≠ b_dev) :
    get_link_tupple a_dev a_int b_dev b_int
      = get_link_tupple b_dev b_int a_dev a_int := by
  unfold get_link_tupple
  have hd : a_dev.data ≠ b_dev.data := fun he =>
    h (by cases a_dev; cases b_dev; simp_all)
  rcases lt_or_gt_of_ne hd with hlt | hgt
  · rw [if_pos hlt, if_neg (asymm hlt)]
  · rw [if_neg (asymm hgt), if_pos hgt]

/-- On a self-link `get_link_tupple` takes the `else` branch (the strict
comparison fails on equal names) and therefore swaps the two endpoints. -/
theorem get_link_tupple_self (A i1 i2 : String) :
    get_link_tupple A i1 A i2 = (A, i2, A, i1) := by
  unfold get_link_tupple
  rw [if_neg (lt_irrefl A.data)]

/-- `pyReplace` with a single-character pattern and replacement is the
character-wise substitution map. -/
theorem pyReplace_singleton (a b : Char) (l : List Char) :
    pyReplace [a] [b] l = l.map (fun c => if c = a then b else c) := by
  induction l with
  | nil => simp [pyReplace]
  | cons c cs ih =>
    rw [pyReplace]
    by_cases hc : c = a
    · subst hc
      rw [if_pos (by simp)]
      simp [ih]
    · rw [if_neg (by simp [List.take]; intro he; exact (hc he.symm).elim)]
      simp [hc, ih]

/-- `splitChar` never returns the empty list of segments. -/
theorem splitChar_ne_nil (sep : Char) (l : List Char) :
    splitChar sep l ≠ [] := by
  cases l with
  | nil => simp [splitChar]
  | cons c cs =>
    rw [splitChar]
    rcases hs : splitChar sep cs with - | ⟨h, t⟩
    · simp
    · by_cases hc : c = sep <;> simp [hc]

/-- A list containing the separator splits into at least two segments. -/
theorem splitChar_two_le_of_mem (sep : Char) (l : List Char) (h : sep ∈ l) :
    2 ≤ (splitChar sep l).length := by
  induction l with
  | nil => simp at h
  | cons c cs ih =>
    rw [splitChar]
    rcases hs : splitChar sep cs with - | ⟨h0, t⟩
    · exact absurd hs (splitChar_ne_nil sep cs)
    · by_cases hc : c = sep
      · simp [hc]
      · have hm : sep ∈ cs := by
          rcases List.mem_cons.mp h with h1 | h2
          · exact absurd h1.symm hc
          · exact h2
        have h2 := ih hm
        rw [hs] at h2
        simp [hc] at h2 ⊢
        omega

/-- Splitting a list that contains `sep :: l2` as its tail looks past that
separator: the final segment is the final segment of `splitChar sep l2`. -/
theorem splitChar_last_append (sep : Char) (l1 l2 : List Char) :
    (splitChar sep (l1 ++ sep :: l2)).getLastD []
      = (splitChar sep l2).getLastD [] := by
  induction l1 with
  | nil =>
    rw [List.nil_append, splitChar]
    rcases hs : splitChar sep l2 with - | ⟨h, t⟩
    · exact absurd hs (splitChar_ne_nil sep l2)
    · simp
  | cons c cs ih =>
    rw [List.cons_append, splitChar]
    rcases hs : splitChar sep (cs ++ sep :: l2) with - | ⟨h, t⟩
    · exact absurd hs (splitChar_ne_nil sep (cs ++ sep :: l2))
    · rw [hs] at ih
      by_cases hc : c = sep
      · simpa [hc] using ih
      · rcases ht : t with - | ⟨t0, ts⟩
        · subst ht
          have hlen := splitChar_two_le_of_mem sep (cs ++ sep :: l2) (by simp)
          rw [hs] at hlen
          simp at hlen
        · simp only [hc, if_false, ht] at ih ⊢
          simpa using ih

/-- Splitting a list that avoids the separator yields that single segment. -/
theorem splitChar_not_mem (sep : Char) (l : List Char) (h : sep ∉ l) :
    splitChar sep l = [l] := by
  induction l with
  | nil => simp [splitChar]
  | cons c cs ih =>
    rw [splitChar]
    have hc : c ≠ sep := fun he => h (by simp [he])
    have hcs : sep ∉ cs := fun hm => h (by simp [hm])
    rw [ih hcs]
    simp [hc]

/-- The juniper translation is the character-wise map sending `/` and `:`
to `_` and fixing every other character. -/
theorem get_valid_juniper_name_data (s : String) :
    (get_valid_juniper_name s).data
      = s.data.map (fun c => if c = '/' ∨ c = ':' then '_' else c) := by
  show pyReplace [':'] ['_'] (pyReplace ['/'] ['_'] s.data) = _
  rw [pyReplace_singleton, pyReplace_singleton, List.map_map]
  have hfun : ((fun c => if c = ':' then '_' else c)
        ∘ (fun c => if c = '/' then '_' else c))
      = (fun c => if c = '/' ∨ c = ':' then '_' else c) := by
    funext c
    by_cases h1 : c = '/' <;> by_cases h2 : c = ':' <;>
      simp [h1, h2, Function.comp]
  rw [hfun]

/-- The nokia translation keeps exactly the part after the last `/`. -/
theorem get_nokia_name_last (pre post : List Char) (h : '/' ∉ post) :
    get_nokia_name ⟨pre ++ '/' :: post⟩ = "e1-" ++ ⟨post⟩ := by
  show ("e1-" ++ (⟨(splitChar '/' (pre ++ '/' :: post)).getLastD []⟩ : String))
      = "e1-" ++ (⟨post⟩ : String)
  rw [splitChar_last_append, splitChar_not_mem _ _ h]
  rfl

/-- Validation of the `int()` model against CPython 3.11 on the shapes
it distinguishes: underscore grouping, doubled/leading/trailing
underscores, surrounding whitespace, signs, and non-digit text. -/
theorem pyInt_cpython_checks :
    pyInt "1_1".data = some 11 ∧ pyInt "9_9_9".data = some 999 ∧
    pyInt "1__1".data = none ∧ pyInt "_1".data = none ∧
    pyInt "1_".data = none ∧ pyInt " 42 ".data = some 42 ∧
    pyInt "+1_0".data = some 10 ∧ pyInt "+_1".data = none ∧
    pyInt "-5".data = some (-5) ∧ pyInt " - 5".data = none ∧
    pyInt "00_1".data = some 1 ∧ pyInt "100".data = some 100 ∧
    pyInt "".data = none ∧ pyInt "+".data = none ∧
    pyInt "4/1".data = none ∧ pyInt "\t\n007 ".data = some 7 := by
  decide

/-- A PEP 515 vlan suffix goes through the VLAN branch exactly as in
CPython: `int("1_1") = 11`, so child `xe-0/0/0.1_1` under in-scope parent
`xe-0/0/0` yields vlan id 11, not a raise. -/
theorem interface_actions_pep515 :
    interface_actions ["xe-0/0/0"] "juniper"
        ⟨"xe-0/0/0.1_1", some "xe-0/0/0", ["10.0.0.3/31"], []⟩
      = some [Action.createVlanSub "xe-0_0_0" "xe-0_0_0.1_1" 11,
              Action.addAddress "xe-0_0_0.1_1" "10.0.0.3/31",
              Action.setLinkUp "xe-0_0_0.1_1"] := by
  have hchild : get_valid_juniper_name "xe-0/0/0.1_1" = "xe-0_0_0.1_1" := by
    simp [get_valid_juniper_name, pyReplaceS, pyReplace]
  have hpar : get_valid_juniper_name "xe-0/0/0" = "xe-0_0_0" := by
    simp [get_valid_juniper_name, pyReplaceS, pyReplace]
  simp only [interface_actions, hchild, hpar]
  decide

/-! ## Claims -/

/-- C1: the link canonicalizer is claimed to be order-independent for all
device names, including `A = B`.  This fails at a self-link with two
different interface names: the two calls return each other's swap. -/
theorem C1_counterexample :
    ¬ (get_link_tupple "a" "x" "a" "y" = get_link_tupple "a" "y" "a" "x") := by
  decide

/-- C1 (amended): for all device names `A ≠ B` and all interface names,
`get_link_tupple A iA B iB = get_link_tupple B iB A iA`; when `A = B` the
two calls agree only if the interface names coincide. -/
theorem C1_theorem (A iA B iB : String) (h : A ≠ B) :
    get_link_tupple A iA B iB = get_link_tupple B iB A iA :=
  get_link_tupple_comm A iA B iB h

/-- C1 witness: the amended symmetry at a concrete link. -/
theorem C1_witness :
    ("r1" : String) ≠ "r2" ∧
      get_link_tupple "r1" "xe-0/0/1" "r2" "xe-0/1/1"
        = get_link_tupple "r2" "xe-0/1/1" "r1" "xe-0/0/1" :=
  ⟨by decide, C1_theorem "r1" "xe-0/0/1" "r2" "xe-0/1/1" (by decide)⟩

/-- C6: the interface name translator — juniper maps every `/` and `:` to
`_` (so `xe-0/0/1 ↦ xe-0_0_1`), nokia keeps the final slash-delimited
segment prefixed with `e1-` (so `1/1/c1/1 ↦ e1-1`). -/
theorem C6_theorem :
    get_valid_juniper_name "xe-0/0/1" = "xe-0_0_1" ∧
    get_nokia_name "1/1/c1/1" = "e1-1" ∧
    (∀ s : String, (get_valid_juniper_name s).data
        = s.data.map (fun c => if c = '/' ∨ c = ':' then '_' else c)) ∧
    (∀ pre post : List Char, '/' ∉ post →
        get_nokia_name ⟨pre ++ '/' :: post⟩ = "e1-" ++ ⟨post⟩) := by
  refine ⟨?_, ?_, get_valid_juniper_name_data, get_nokia_name_last⟩
  · refine String.toList_inj.mp ?_
    show (get_valid_juniper_name "xe-0/0/1").data = "xe-0_0_1".data
    rw [get_valid_juniper_name_data]
    decide
  · decide

/-- C6 witness: the last-segment characterization applied at the claim's
own nokia example, split as `"1/1/c1" ++ "/" ++ "1"`. -/
theorem C6_witness :
    ('/' ∉ "1".data) ∧
      get_nokia_name ⟨"1/1/c1".data ++ '/' :: "1".data⟩ = "e1-" ++ "1" :=
  ⟨by decide, C6_theorem.2.2.2 "1/1/c1".data "1".data (by decide)⟩

/-- C7: a self-link is claimed to return the endpoints in original
argument order.  It does not: the comparison `a_dev < b_dev` fails on
equal names, so the `else` branch swaps the endpoints. -/
theorem C7_counterexample :
    ¬ (get_link_tupple "a" "x" "a" "y" = ("a", "x", "a", "y")) := by
  decide

/-- C7 (amended): a self-link does not crash; it returns the four
endpoints with the two interface names swapped:
`get_link_tupple A i1 A i2 = (A, i2, A, i1)`. -/
theorem C7_theorem (A i1 i2 : String) :
    get_link_tupple A i1 A i2 = (A, i2, A, i1) :=
  get_link_tupple_self A i1 i2

/-- The builder guard succeeds exactly on a populated first endpoint whose
peer device is requested, and then records the interface name with the
canonical tuple. -/
theorem interface_link_eq_some {lab : List String} {dn : String}
    {i : Interface} {p : String × LinkTup} :
    interface_link lab dn i = some p ↔
      ∃ ep : Endpoint, i.connected_endpoints.head? = some (some ep)
        ∧ ep.device ∈ lab
        ∧ p = (i.name, get_link_tupple dn i.name ep.device ep.name) := by
  unfold interface_link
  rcases hh : i.connected_endpoints.head? with - | oe
  · simp
  · rcases oe with - | ep
    · simp
    · by_cases hm : ep.device ∈ lab
      · simp [hm, eq_comm]
      · simp [hm]

/-- Membership in the builder's link set: exactly the canonical tuples of
the inventory's guarded (device, interface, first-endpoint) triples. -/
theorem mem_build_links {lab : List String} {devices : List Device}
    {t : LinkTup} :
    t ∈ build_links lab devices ↔
      ∃ d ∈ devices, ∃ i ∈ d.interfaces, ∃ ep : Endpoint,
        i.connected_endpoints.head? = some (some ep) ∧ ep.device ∈ lab ∧
        t = get_link_tupple d.name i.name ep.device ep.name := by
  constructor
  · intro h
    simp only [build_links, List.mem_toFinset, List.mem_flatten,
      List.mem_map] at h
    obtain ⟨l, ⟨d, hd, rfl⟩, ht⟩ := h
    obtain ⟨p, hp, rfl⟩ := List.mem_map.mp ht
    obtain ⟨i, hi, hlink⟩ := List.mem_filterMap.mp
      (show p ∈ d.interfaces.filterMap (interface_link lab d.name) from hp)
    obtain ⟨ep, hh, hm, rfl⟩ := interface_link_eq_some.mp hlink
    exact ⟨d, hd, i, hi, ep, hh, hm, rfl⟩
  · rintro ⟨d, hd, i, hi, ep, hh, hm, rfl⟩
    refine List.mem_toFinset.mpr (List.mem_flatten.mpr
      ⟨(scan_device lab d).map Prod.snd, List.mem_map_of_mem _ hd, ?_⟩)
    refine List.mem_map.mpr
      ⟨(i.name, get_link_tupple d.name i.name ep.device ep.name), ?_, rfl⟩
    exact List.mem_filterMap.mpr
      ⟨i, hi, interface_link_eq_some.mpr ⟨ep, hh, hm, rfl⟩⟩

/-- C2: in every inventory in which two distinct requested devices `A`
and `B` each carry an interface whose connected-endpoint points at the
other, the builder's link set holds exactly one canonical link for that
pair — the links matching either orientation form the singleton of the
canonical tuple, never two elements. -/
theorem C2_theorem (lab : List String) (devices : List Device)
    (A B iA iB : String) (hAB : A ≠ B)
    (_hAlab : A ∈ lab) (hBlab : B ∈ lab)
    (hA : ∃ dA ∈ devices, dA.name = A ∧ ∃ i ∈ dA.interfaces,
        i.name = iA ∧ i.connected_endpoints.head? = some (some ⟨B, iB⟩))
    (_hB : ∃ dB ∈ devices, dB.name = B ∧ ∃ i ∈ dB.interfaces,
        i.name = iB ∧ i.connected_endpoints.head? = some (some ⟨A, iA⟩)) :
    (build_links lab devices).filter
        (fun t => t = get_link_tupple A iA B iB
          ∨ t = get_link_tupple B iB A iA)
      = {get_link_tupple A iA B iB} := by
  have hcomm : get_link_tupple B iB A iA = get_link_tupple A iA B iB :=
    get_link_tupple_comm B iB A iA (Ne.symm hAB)
  have hmem : get_link_tupple A iA B iB ∈ build_links lab devices := by
    rw [mem_build_links]
    obtain ⟨dA, hdA, hnameA, i, hi, hiname, hhead⟩ := hA
    exact ⟨dA, hdA, i, hi, ⟨B, iB⟩, hhead, hBlab, by rw [hnameA, hiname]⟩
  ext t
  simp only [Finset.mem_filter, Finset.mem_singleton, hcomm, or_self]
  constructor
  · rintro ⟨-, h⟩
    exact h
  · rintro rfl
    exact ⟨hmem, rfl⟩

/-- C2 witness: the dedup property at the concrete pair of the spec's
end-to-end scenario. -/
theorem C2_witness :
    ("r1" : String) ≠ "r2" ∧ ("r1" : String) ∈ ["r1", "r2"] ∧
    ("r2" : String) ∈ ["r1", "r2"] ∧
      (build_links ["r1", "r2"]
          [⟨"r1", "cr", "juniper",
              [⟨"xe-0/0/1", none, [], [some ⟨"r2", "xe-0/1/1"⟩]⟩]⟩,
           ⟨"r2", "cr", "juniper",
              [⟨"xe-0/1/1", none, [], [some ⟨"r1", "xe-0/0/1"⟩]⟩]⟩]).filter
          (fun t => t = get_link_tupple "r1" "xe-0/0/1" "r2" "xe-0/1/1"
            ∨ t = get_link_tupple "r2" "xe-0/1/1" "r1" "xe-0/0/1")
        = {get_link_tupple "r1" "xe-0/0/1" "r2" "xe-0/1/1"} :=
  ⟨by decide, by decide, by decide,
    C2_theorem ["r1", "r2"]
      [⟨"r1", "cr", "juniper",
          [⟨"xe-0/0/1", none, [], [some ⟨"r2", "xe-0/1/1"⟩]⟩]⟩,
       ⟨"r2", "cr", "juniper",
          [⟨"xe-0/1/1", none, [], [some ⟨"r1", "xe-0/0/1"⟩]⟩]⟩]
      "r1" "r2" "xe-0/0/1" "xe-0/1/1" (by decide) (by decide) (by decide)
      ⟨⟨"r1", "cr", "juniper",
          [⟨"xe-0/0/1", none, [], [some ⟨"r2", "xe-0/1/1"⟩]⟩]⟩,
        by simp, rfl,
        ⟨"xe-0/0/1", none, [], [some ⟨"r2", "xe-0/1/1"⟩]⟩, by simp, rfl, rfl⟩
      ⟨⟨"r2", "cr", "juniper",
          [⟨"xe-0/1/1", none, [], [some ⟨"r1", "xe-0/0/1"⟩]⟩]⟩,
        by simp, rfl,
        ⟨"xe-0/1/1", none, [], [some ⟨"r1", "xe-0/0/1"⟩]⟩, by simp, rfl, rfl⟩⟩

/-- C3: the builder is claimed to guard every endpoint, local and peer,
against `requested_names`.  It guards only the peer: an inventory device
outside the requested set still contributes a link whose local endpoint is
that device. -/
theorem C3_counterexample :
    ("a", "j", "c", "i") ∈ build_links ["a"]
        [⟨"c", "cr", "juniper", [⟨"i", none, [], [some ⟨"a", "j"⟩]⟩]⟩]
      ∧ ("c" : String) ∉ ["a"] := by
  constructor
  · rw [mem_build_links]
    exact ⟨⟨"c", "cr", "juniper", [⟨"i", none, [], [some ⟨"a", "j"⟩]⟩]⟩,
      by simp, ⟨"i", none, [], [some ⟨"a", "j"⟩]⟩, by simp,
      ⟨"a", "j"⟩, rfl, by simp, by decide⟩
  · decide

/-- C3 (amended): the builder guards only the peer endpoint; when the
inventory is additionally pre-filtered to the requested set (every
inventory device's name is in `requested_names`, as the fetch collaborator
guarantees), both endpoint device names of every produced link are in
`requested_names`. -/
theorem C3_theorem (lab : List String) (devices : List Device) (t : LinkTup)
    (hpre : ∀ d ∈ devices, d.name ∈ lab)
    (ht : t ∈ build_links lab devices) :
    t.1 ∈ lab ∧ t.2.2.1 ∈ lab := by
  rw [mem_build_links] at ht
  obtain ⟨d, hd, i, hi, ep, hh, hmem, rfl⟩ := ht
  unfold get_link_tupple
  split
  · exact ⟨hpre d hd, hmem⟩
  · exact ⟨hmem, hpre d hd⟩

/-- C3 witness: both endpoints of the canonical link of a pre-filtered
two-device inventory are requested. -/
theorem C3_witness :
    (∀ d ∈ [(⟨"r1", "cr", "juniper",
          [⟨"xe-0/0/1", none, [], [some ⟨"r2", "xe-0/1/1"⟩]⟩]⟩ : Device),
        ⟨"r2", "cr", "juniper",
          [⟨"xe-0/1/1", none, [], [some ⟨"r1", "xe-0/0/1"⟩]⟩]⟩],
        d.name ∈ ["r1", "r2"]) ∧
    ("r1", "xe-0/0/1", "r2", "xe-0/1/1") ∈ build_links ["r1", "r2"]
        [⟨"r1", "cr", "juniper",
            [⟨"xe-0/0/1", none, [], [some ⟨"r2", "xe-0/1/1"⟩]⟩]⟩,
         ⟨"r2", "cr", "juniper",
            [⟨"xe-0/1/1", none, [], [some ⟨"r1", "xe-0/0/1"⟩]⟩]⟩] ∧
    (("r1", "xe-0/0/1", "r2", "xe-0/1/1") : LinkTup).1 ∈ ["r1", "r2"] ∧
    (("r1", "xe-0/0/1", "r2", "xe-0/1/1") : LinkTup).2.2.1 ∈ ["r1", "r2"] := by
  refine ⟨by decide, by decide,
    C3_theorem ["r1", "r2"]
      [⟨"r1", "cr", "juniper",
          [⟨"xe-0/0/1", none, [], [some ⟨"r2", "xe-0/1/1"⟩]⟩]⟩,
       ⟨"r2", "cr", "juniper",
          [⟨"xe-0/1/1", none, [], [some ⟨"r1", "xe-0/0/1"⟩]⟩]⟩]
      ("r1", "xe-0/0/1", "r2", "xe-0/1/1") (by decide) (by decide)⟩

/-- C4: an interface whose connected-endpoint list is empty, whose first
entry is the empty record (modelling the inventory's empty `{}` entry for
a non-interface peer — the "empty device name" case), or whose peer
device name is empty or outside `requested_names`, contributes no link and
no scoped-interface entry; the builder stays total on it. -/
theorem C4_theorem (lab : List String) (dname rol manu : String)
    (i : Interface) (hlab : ("" : String) ∉ lab)
    (hedge : i.connected_endpoints = []
      ∨ i.connected_endpoints.head? = some none
      ∨ (∃ ep : Endpoint, i.connected_endpoints.head? = some (some ep)
          ∧ (ep.device = "" ∨ ep.device ∉ lab))) :
    interface_link lab dname i = none ∧
    build_links lab [⟨dname, rol, manu, [i]⟩] = ∅ ∧
    connected_interfaces lab [⟨dname, rol, manu, [i]⟩] dname = [] := by
  have hnone : interface_link lab dname i = none := by
    rcases hedge with he | he | ⟨ep, he, hd⟩
    · simp [interface_link, he]
    · simp [interface_link, he]
    · rcases hd with hd | hd
      · simp [interface_link, he, hd, hlab]
      · simp [interface_link, he, hd]
  refine ⟨hnone, ?_, ?_⟩
  · simp [build_links, scan_device, hnone]
  · simp [connected_interfaces, scan_device, hnone]

/-- C4 witness: a disconnected interface (empty connected-endpoint list)
produces no link and no scoped entry. -/
theorem C4_witness :
    (("" : String) ∉ ["a"]) ∧
    interface_link ["a"] "d" ⟨"i", none, ["10.0.0.1/31"], []⟩ = none ∧
    build_links ["a"] [⟨"d", "cr", "juniper",
        [⟨"i", none, ["10.0.0.1/31"], []⟩]⟩] = ∅ ∧
    connected_interfaces ["a"] [⟨"d", "cr", "juniper",
        [⟨"i", none, ["10.0.0.1/31"], []⟩]⟩] "d" = [] := by
  refine ⟨by decide, C4_theorem ["a"] "d" "cr" "juniper" _ (by decide)
    (Or.inl rfl)⟩

/-- C5: the VLAN sub-interface branch is claimed to fire for every
interface with an in-scope parent, an out-of-scope own name and at least
one address.  It does not fire for the interface named `lo0`: the first
branch of the classification (`name in scope or name == "lo0"`) captures
it and emits a plain `add-address`, no `create-vlan-subinterface`. -/
theorem C5_counterexample :
    interface_actions ["xe-0/0/0"] "juniper"
        ⟨"lo0", some "xe-0/0/0", ["10.0.0.1/32"], []⟩
      = some [Action.addAddress "lo" "10.0.0.1/32"] ∧
    ¬ ∃ (parent child : String) (vlan : Int) (rest : List Action),
        interface_actions ["xe-0/0/0"] "juniper"
            ⟨"lo0", some "xe-0/0/0", ["10.0.0.1/32"], []⟩
          = some (Action.createVlanSub parent child vlan :: rest) := by
  have heval : interface_actions ["xe-0/0/0"] "juniper"
      ⟨"lo0", some "xe-0/0/0", ["10.0.0.1/32"], []⟩
    = some [Action.addAddress "lo" "10.0.0.1/32"] := by
    simp [interface_actions, get_valid_juniper_name, pyReplaceS, pyReplace]
  refine ⟨heval, ?_⟩
  rintro ⟨parent, child, vlan, rest, heq⟩
  rw [heval] at heq
  simp at heq

/-- C5 (amended): for every non-switch device interface with an ASCII
name, an in-scope parent, an own raw name that is out of scope and is not
the reserved loopback name `lo0`, and at least one address, the
synthesizer emits `create-vlan-subinterface(translated parent, translated
child, suffix)` followed by one `add-address` per address followed by
`set-link-up` — provided the suffix after the final `.` of the translated
child name parses as a Python base-10 integer literal (optional sign,
decimal digits with PEP 515 underscore grouping, surrounding whitespace);
when it does not parse, the branch raises instead.  The ASCII hypothesis
delimits the range on which `pyInt` models CPython's `int()`. -/
theorem C5_theorem (connected : List String) (manufacturer : String)
    (i : Interface) (parent : String)
    (_hascii : ∀ c ∈ i.name.data, c.toNat < 128)
    (hips : i.ip_addresses ≠ [])
    (hnotscope : i.name ∉ connected) (hnotlo : i.name ≠ "lo0")
    (hparent : i.parent = some parent) (hpscope : parent ∈ connected) :
    interface_actions connected manufacturer i
      = (match pyInt ((splitChar '.'
            (get_valid_juniper_name i.name).data).getLastD []) with
         | some vlan =>
            some (Action.createVlanSub (get_valid_juniper_name parent)
                (get_valid_juniper_name i.name) vlan ::
              i.ip_addresses.map (fun ip =>
                Action.addAddress (get_valid_juniper_name i.name) ip) ++
              [Action.setLinkUp (get_valid_juniper_name i.name)])
         | none => none) := by
  simp only [interface_actions, hparent]
  rw [if_neg hips, if_neg (not_or.mpr ⟨hnotscope, hnotlo⟩),
    if_pos hpscope]

/-- C5 witness: the spec's own example — child `ge-0/0/0.100` with one
address under in-scope parent `ge-0/0/0` — through the amended theorem. -/
theorem C5_witness :
    (∀ c ∈ ("ge-0/0/0.100" : String).data, c.toNat < 128) ∧
    (["10.0.0.2/31"] ≠ ([] : List String)) ∧
    ("ge-0/0/0.100" : String) ∉ ["ge-0/0/0"] ∧
    ("ge-0/0/0.100" : String) ≠ "lo0" ∧
    (some "ge-0/0/0" = some "ge-0/0/0") ∧
    ("ge-0/0/0" : String) ∈ ["ge-0/0/0"] ∧
    interface_actions ["ge-0/0/0"] "juniper"
        ⟨"ge-0/0/0.100", some "ge-0/0/0", ["10.0.0.2/31"], []⟩
      = (match pyInt ((splitChar '.'
            (get_valid_juniper_name "ge-0/0/0.100").data).getLastD []) with
         | some vlan =>
            some (Action.createVlanSub (get_valid_juniper_name "ge-0/0/0")
                (get_valid_juniper_name "ge-0/0/0.100") vlan ::
              ["10.0.0.2/31"].map (fun ip =>
                Action.addAddress (get_valid_juniper_name "ge-0/0/0.100") ip) ++
              [Action.setLinkUp (get_valid_juniper_name "ge-0/0/0.100")])
         | none => none) :=
  ⟨by decide, by decide, by decide, by decide, rfl, by decide,
    C5_theorem ["ge-0/0/0"] "juniper"
      ⟨"ge-0/0/0.100", some "ge-0/0/0", ["10.0.0.2/31"], []⟩ "ge-0/0/0"
      (by decide) (by decide) (by decide) (by decide) rfl (by decide)⟩

/-- C8: the synthesizer is claimed never to raise.  It does: a VLAN
sub-interface with an in-scope parent whose translated name has no
integer suffix after its final `.` makes the `int()` call raise
`ValueError`, aborting the run (flag `false`). -/
theorem C8_counterexample :
    (generate_start_script
        [⟨"d", "cr", "juniper",
            [⟨"xe-0/0/0x", some "xe-0/0/0", ["10.0.0.1/31"], []⟩]⟩]
        (fun _ => ["xe-0/0/0"])).2 = false := by
  have hjun : get_valid_juniper_name "xe-0/0/0x" = "xe-0_0_0x" := by
    simp [get_valid_juniper_name, pyReplaceS, pyReplace]
  have hact : interface_actions ["xe-0/0/0"] "juniper"
      ⟨"xe-0/0/0x", some "xe-0/0/0", ["10.0.0.1/31"], []⟩ = none := by
    simp only [interface_actions, hjun]
    decide
  simp [generate_start_script, run_interfaces, hact]

/-- C8 (amended): the builder is total; for ASCII interface names the
synthesizer is total except that it raises exactly on an interface with
at least one address, an out-of-scope own name other than `lo0`, and an
in-scope parent, whose translated name's suffix after the final `.` does
not parse as a Python base-10 integer literal (optional sign, decimal
digits with PEP 515 underscore grouping, surrounding whitespace); a
device run aborts exactly when such an interface occurs.  The ASCII
hypothesis delimits the range on which `pyInt` models CPython's `int()`;
the iff itself holds in the model for every interface. -/
theorem C8_theorem (connected : List String) (manufacturer : String) :
    (∀ i : Interface, (∀ c ∈ i.name.data, c.toNat < 128) →
      (interface_actions connected manufacturer i = none ↔
        (i.ip_addresses ≠ [] ∧ i.name ∉ connected ∧ i.name ≠ "lo0" ∧
          ∃ parent, i.parent = some parent ∧ parent ∈ connected ∧
            pyInt ((splitChar '.'
              (get_valid_juniper_name i.name).data).getLastD []) = none))) ∧
    (∀ ifaces : List Interface,
      (run_interfaces connected manufacturer ifaces).2 = false ↔
        ∃ i ∈ ifaces, interface_actions connected manufacturer i = none) := by
  constructor
  · intro i _hascii
    unfold interface_actions
    by_cases h1 : i.ip_addresses = []
    · simp [h1]
    · by_cases h2 : i.name ∈ connected ∨ i.name = "lo0"
      · rcases h2 with h2 | h2 <;> simp [h1, h2]
      · rw [not_or] at h2
        rcases hp : i.parent with - | parent
        · simp [h1, h2.1, h2.2, hp]
        · by_cases h3 : parent ∈ connected
          · rcases hv : pyInt ((splitChar '.'
                (get_valid_juniper_name i.name).data).getLast?.getD [])
              with - | v <;>
              simp [h1, h2.1, h2.2, hp, h3, hv]
          · simp [h1, h2.1, h2.2, hp, h3]
  · intro ifaces
    induction ifaces with
    | nil => simp [run_interfaces]
    | cons i rest ih =>
      rw [run_interfaces]
      rcases ha : interface_actions connected manufacturer i with - | acts
      · simp [ha]
      · simp [ha, ih]

/-- C8 witness: the raising characterization instantiated at the ASCII
interface `xe-0/0/0x` with in-scope parent `xe-0/0/0` and one address. -/
theorem C8_witness :
    (∀ c ∈ ("xe-0/0/0x" : String).data, c.toNat < 128) ∧
    (interface_actions ["xe-0/0/0"] "juniper"
        ⟨"xe-0/0/0x", some "xe-0/0/0", ["10.0.0.1/31"], []⟩ = none ↔
      ((["10.0.0.1/31"] : List String) ≠ [] ∧
        ("xe-0/0/0x" : String) ∉ ["xe-0/0/0"] ∧
        ("xe-0/0/0x" : String) ≠ "lo0" ∧
        ∃ parent, some "xe-0/0/0" = some parent ∧
          parent ∈ ["xe-0/0/0"] ∧
          pyInt ((splitChar '.'
            (get_valid_juniper_name "xe-0/0/0x").data).getLastD []) = none)) :=
  ⟨by decide, ( C8_theorem ["xe-0/0/0"] "juniper").1
      ⟨"xe-0/0/0x", some "xe-0/0/0", ["10.0.0.1/31"], []⟩ (by decide)⟩

/-- C9: every non-`asw` device's provisioning sequence starts with the
ARP-ignore action (also for unrecognized roles, which produce no emitted
node); only `asw` devices get zero provisioning entries. -/
theorem C9_theorem (connected : String → List String) (d : Device) :
    (d.role ≠ "asw" →
      ∃ rest, (generate_start_script [d] connected).1
        = [(d.name, Action.setArpIgnore :: rest)]) ∧
    (d.role = "asw" → (generate_start_script [d] connected).1 = []) ∧
    (d.role ≠ "server" → d.role ≠ "asw" → d.role ≠ "cr" →
      node_for_device d = none) := by
  refine ⟨?_, ?_, ?_⟩
  · intro h
    rw [generate_start_script, if_neg h]
    by_cases h2 :
        (run_interfaces (connected d.name) d.manufacturer d.interfaces).2
    · rw [if_pos h2]
      exact ⟨_, by rw [generate_start_script]⟩
    · rw [if_neg h2]
      exact ⟨_, rfl⟩
  · intro h
    rw [generate_start_script, if_pos h, generate_start_script]
  · intro h1 h2 h3
    simp [node_for_device, h1, h2, h3]

/-- C9 witness: a `cr` device (with the ARP action first), an `asw`
device (zero entries), and an unrecognized role (no node, ARP action
still first). -/
theorem C9_witness :
    (("cr" : String) ≠ "asw" ∧
      ∃ rest, (generate_start_script [⟨"d", "cr", "juniper", []⟩]
          (fun _ => [])).1 = [("d", Action.setArpIgnore :: rest)]) ∧
    (("asw" : String) = "asw" ∧
      (generate_start_script [⟨"s", "asw", "nokia", []⟩]
          (fun _ => [])).1 = []) ∧
    (("mgmt" : String) ≠ "server" ∧ ("mgmt" : String) ≠ "asw" ∧
      ("mgmt" : String) ≠ "cr" ∧
      node_for_device ⟨"m", "mgmt", "juniper", []⟩ = none) :=
  ⟨⟨by decide,
      ( C9_theorem (fun _ => []) ⟨"d", "cr", "juniper", []⟩).1 (by decide)⟩,
   ⟨rfl, ( C9_theorem (fun _ => []) ⟨"s", "asw", "nokia", []⟩).2.1 rfl⟩,
   ⟨by decide, by decide, by decide,
      ( C9_theorem (fun _ => []) ⟨"m", "mgmt", "juniper", []⟩).2.2
        (by decide) (by decide) (by decide)⟩⟩

/-- C10: in the in-scope/loopback branch, every `add-address` action's
device name is the (possibly juniper-translated) interface name with
every occurrence of the substring `lo0` replaced by `lo` — not only the
exact name `lo0`; the concrete conjuncts show a name containing `lo0`
strictly inside and a name with two occurrences. -/
theorem C10_theorem (connected : List String) (manufacturer : String)
    (i : Interface) (hips : i.ip_addresses ≠ [])
    (hscope : i.name ∈ connected ∨ i.name = "lo0") :
    interface_actions connected manufacturer i
      = some (i.ip_addresses.map (fun ip => Action.addAddress
          (pyReplaceS "lo0" "lo"
            (if manufacturer = "juniper" then get_valid_juniper_name i.name
             else i.name)) ip)) ∧
    pyReplaceS "lo0" "lo" "lo0" = "lo" ∧
    pyReplaceS "lo0" "lo" "xelo0x" = "xelox" ∧
    pyReplaceS "lo0" "lo" "lo0lo0" = "lolo" := by
  refine ⟨?_, ?_, ?_, ?_⟩
  · unfold interface_actions
    rw [if_neg hips, if_pos hscope]
  · simp [pyReplaceS, pyReplace]
  · simp [pyReplaceS, pyReplace]
  · simp [pyReplaceS, pyReplace]

/-- C10 witness: an in-scope interface named `vlo0x` on a non-juniper
device gets its addresses added on device name `vlox`. -/
theorem C10_witness :
    (["10.9.9.9/32"] ≠ ([] : List String)) ∧
    (("vlo0x" : String) ∈ ["vlo0x"] ∨ ("vlo0x" : String) = "lo0") ∧
    interface_actions ["vlo0x"] "nokia"
        ⟨"vlo0x", none, ["10.9.9.9/32"], []⟩
      = some (["10.9.9.9/32"].map (fun ip => Action.addAddress
          (pyReplaceS "lo0" "lo"
            (if ("nokia" : String) = "juniper"
             then get_valid_juniper_name "vlo0x" else "vlo0x")) ip)) :=
  ⟨by decide, Or.inl (by decide),
    ( C10_theorem ["vlo0x"] "nokia" ⟨"vlo0x", none, ["10.9.9.9/32"], []⟩
      (by decide) (Or.inl (by decide))).1⟩

end GenTopo
